import Mathlib

set_option maxRecDepth 1000000
set_option maxHeartbeats 4000000

/-!
Verification of the legal-document-assistant application (src/app.py).

The application is a single-script Streamlit app.  Its behaviour is embedded
shallowly below:

* the hosted Gemini completion service is an oracle
  `gen : String → Except String String` (a raised exception is
  `Except.error`);
* an uploaded PDF is represented by the outcome of `pdfplumber.open` on it:
  either a raised exception or the list of its pages, where each page is the
  result of `page.extract_text()` (`none` for a page with no text layer);
* `st.session_state` is the structure `SessionState`, and each user
  interaction (a click of "Analyze Document", or submitting a chat
  question) is one `Event` processed by `step`, which returns the new
  session state together with the observable `Effect`s of the script run
  (completion-API requests, file downloads);
* Python strings are Lean `String`s, and `textwrap.dedent` is implemented
  faithfully (whitespace-only lines are normalized to empty lines, then the
  longest common space/tab margin of the remaining lines is stripped).
-/

namespace LegalApp

/-- Chat message dictionary `{"role": ..., "content": ...}` kept in
`st.session_state.messages`. -/
structure Message where
  role : String
  content : String
deriving DecidableEq, Repr

/-- Result of `pdfplumber.open` on an uploaded file: a raised exception, or
the list of pages, each page being what `page.extract_text()` returns
(`none` models Python `None`). -/
abbrev PdfFile := Except String (List (Option String))

/-- Truthiness of a Python `Optional[str]`: `None` and the empty string are
falsy. -/
def pyTruthy : Option String → Bool
  | none => false
  | some s => !(s == "")

/-- Per-page contribution inside the generator expression of line 68: the
page's `extract_text()` value when it is truthy, skipped otherwise (the
filter `if page.extract_text()` drops `None` and empty strings). -/
def pageText : Option String → Option String
  | some t => if t == "" then none else some t
  | none => none

/-- Function `extract_text_from_pdf` (src/app.py lines 62-71): `none` for a
missing file and when `pdfplumber` raises (after `st.error`), otherwise the
join of `page.extract_text()` over the pages for which that value is truthy
(not `None` and not empty). -/
def extract_text_from_pdf (uploaded_file : Option PdfFile) : Option String :=
  match uploaded_file with
  | none => none
  | some (Except.error _) => none
  | some (Except.ok pages) =>
      some (String.join (pages.filterMap pageText))

/-- Function `get_gemini_response` (src/app.py lines 73-79).  The first
component is the string the Python function returns: the generated text on
success, and the formatted error message (never a propagated exception) when
the call raises.  The second component is the list of requests issued to
`model.generate_content`; the body contains a single call site outside any
loop, so each match arm records exactly the one request made. -/
def get_gemini_response (gen : String → Except String String)
    (prompt_text : String) : String × List String :=
  match gen prompt_text with
  | Except.ok text => (text, [prompt_text])
  | Except.error e =>
      ("Could not get response from Gemini. Error: " ++ e, [prompt_text])

/-! ### textwrap.dedent -/

/-- Horizontal whitespace, the character class `[ \t]` used by
`textwrap.dedent`'s regular expressions. -/
def isHWS (c : Char) : Bool := c == ' ' || c == '\t'

/-- Split a character list at newline characters, Python `text.split("\n")`
(always returns at least one, possibly empty, line; a non-newline character
is prepended to the first line of the split of the rest). -/
def splitNl : List Char → List (List Char)
  | [] => [[]]
  | c :: rest =>
      if c = '\n' then [] :: splitNl rest
      else (c :: (splitNl rest).headI) :: (splitNl rest).tail

/-- Join lines with newline characters, Python `"\n".join(lines)`. -/
def joinNl : List (List Char) → List Char
  | [] => []
  | [l] => l
  | l :: ls => l ++ '\n' :: joinNl ls

/-- Line consisting solely of (one or more) spaces or tabs, the lines matched
by `textwrap`'s `_whitespace_only_re` and blanked before margin
computation. -/
def wsOnly (l : List Char) : Bool := !l.isEmpty && l.all isHWS

/-- Leading space/tab run of a line, the group captured by
`_leading_whitespace_re`. -/
def leadingWS (l : List Char) : List Char := l.takeWhile isHWS

/-- Line containing at least one non-space/tab character, i.e. one that
`_leading_whitespace_re` matches and that therefore contributes its indent to
the margin. -/
def hasContent (l : List Char) : Bool := l.any fun c => !isHWS c

/-- Longest common prefix of two character lists; the margin loop of
`textwrap.dedent` reduces the current margin and the next indent with
exactly this operation. -/
def lcp : List Char → List Char → List Char
  | a :: as, b :: bs => if a = b then a :: lcp as bs else []
  | _, _ => []

/-- Margin of `textwrap.dedent`: the fold of `lcp` over the indents of the
content lines (`margin` starts as `None`, i.e. the first indent). -/
def marginOf : List (List Char) → List Char
  | [] => []
  | i :: rest => rest.foldl lcp i

/-- Does `l` start with the pattern `p`? -/
def startsWith : List Char → List Char → Bool
  | [], _ => true
  | _ :: _, [] => false
  | a :: as, b :: bs => a == b && startsWith as bs

/-- Per-line action of `re.sub(r"(?m)^" + margin, "", text)`: remove the
margin at the start of a line when it is present. -/
def stripMargin (m l : List Char) : List Char :=
  if startsWith m l then l.drop m.length else l

/-- Substring occurrence check: does `n` occur contiguously inside `h`?
(Python's `n in h` on strings.)  Used to state and decide containment
facts about assembled prompts. -/
def hasSub (n : List Char) : List Char → Bool
  | [] => startsWith n []
  | c :: cs => startsWith n (c :: cs) || hasSub n cs

/-- Normalization of one line by `_whitespace_only_re.sub("", text)`: a
whitespace-only line becomes empty, every other line is unchanged. -/
def normWS (l : List Char) : List Char := if wsOnly l then [] else l

/-- Implementation of `textwrap.dedent` on character lists: blank the
whitespace-only lines, compute the margin from the content lines, and when
the margin is non-empty strip it from the start of every line. -/
def dedentChars (cs : List Char) : List Char :=
  let ls := (splitNl cs).map normWS
  let m := marginOf ((ls.filter hasContent).map leadingWS)
  joinNl (if m.isEmpty then ls else ls.map (stripMargin m))

/-- Python `textwrap.dedent` on strings. -/
def dedent (s : String) : String := ⟨dedentChars s.data⟩

/-! ### The three prompt templates (src/app.py lines 123-152 and 197-217)

Each f-string is the template text with the interpolated expressions
(`st.session_state.document_text`, and for the Q&A prompt the chat input
`prompt`) spliced in, then passed through `textwrap.dedent`.  The constants
below are the literal template pieces between the interpolation points,
byte-for-byte as in the source (body lines of the first two templates carry a
28-space indent, the Q&A template a 24-space indent, and each template ends
with the whitespace of the line holding the closing triple quote). -/

/-- Final piece of the summary and risks f-strings before the interpolated
document text: the 28-space-indented `**Document Text:**` line and the `---`
separator line introduced by the literal `\n---\n`. -/
def docHeader28 : String := "                            **Document Text:**\n---\n"

/-- Final piece of the Q&A f-string before the interpolated document text
(24-space indent). -/
def docHeader24 : String := "                        **Document Text:**\n---\n"

/-- Body of the `summary_prompt` f-string before its `**Document Text:**`
line. -/
def summaryBody : String :=
  "\n" ++
  "                            **Role:** You are an AI assistant specializing in simplifying complex legal documents for a general audience. Your goal is to provide clarity, not legal advice.\n" ++
  "                            **Task:** Analyze the following legal document and generate a concise, easy-to-understand summary.\n" ++
  "                            **Instructions:**\n" ++
  "                            1.  **Core Purpose:** Begin with a single sentence that clearly states the document's main purpose.\n" ++
  "                            2.  **Key Parties:** Identify the primary parties involved and their roles.\n" ++
  "                            3.  **Main Obligations:** In a short paragraph, outline the essential obligations of each party.\n" ++
  "                            4.  **Language:** Use simple, plain English. Avoid jargon.\n"

/-- Text of the `summary_prompt` f-string before the interpolated document
text. -/
def summaryPre : String := summaryBody ++ docHeader28

/-- Text of the `summary_prompt` f-string after the interpolated document
text. -/
def summarySuf : String :=
  "\n---\n**Generated Summary:**\n                        "

/-- Assembly of `summary_prompt` (src/app.py lines 123-132). -/
def summary_prompt (document_text : String) : String :=
  dedent (summaryPre ++ document_text ++ summarySuf)

/-- Body of the `risks_prompt` f-string before its `**Document Text:**`
line. -/
def risksBody : String :=
  "\n" ++
  "                            **Role:** AI risk analyst for contracts.\n" ++
  "                            **Task:** Analyze the document and categorize key clauses into three levels: high risk, key responsibilities, and standard provisions.\n" ++
  "\n" ++
  "                            **Output Format:**\n" ++
  "                            Use Markdown with the following specific categories and emoji indicators. For each point, provide a brief, simple explanation.\n" ++
  "\n" ++
  "                            **⚠️ High-Priority Clauses & Risks:**\n" ++
  "                            *   Identify clauses related to significant financial penalties, liabilities, non-standard termination conditions, or automatic renewals that could be detrimental to the signer.\n" ++
  "\n" ++
  "                            **📝 Key User Responsibilities:**\n" ++
  "                            *   List specific actions, duties, or obligations the signer must perform to comply with the agreement (e.g., payment schedules, notice requirements, confidentiality rules).\n" ++
  "\n" ++
  "                            **✅ Standard & Benign Provisions:**\n" ++
  "                            *   List common, low-risk clauses (e.g., governing law, severability, force majeure) that are standard in such agreements.\n" ++
  "\n"

/-- Text of the `risks_prompt` f-string before the interpolated document
text. -/
def risksPre : String := risksBody ++ docHeader28

/-- Text of the `risks_prompt` f-string after the interpolated document
text. -/
def risksSuf : String :=
  "\n---\n**Categorized Analysis:**\n                        "

/-- Assembly of `risks_prompt` (src/app.py lines 135-152). -/
def risks_prompt (document_text : String) : String :=
  dedent (risksPre ++ document_text ++ risksSuf)

/-- Body of the `qa_prompt` f-string before its `**Document Text:**`
line. -/
def qaBody : String :=
  "\n" ++
  "                        **Role:** You are a helpful AI assistant for document analysis.\n" ++
  "\n" ++
  "                        **Core Task:** Answer user questions based *exclusively* on the provided document text.\n" ++
  "\n" ++
  "                        **Special Instructions for Safety/Opinion Questions:**\n" ++
  "                        If the user asks for a legal opinion, or asks if the document is \"safe,\" \"fair,\" or \"good,\" follow these steps:\n" ++
  "                        1.  State clearly that you cannot provide legal advice.\n" ++
  "                        2.  Explain that safety and fairness depend on individual circumstances and legal interpretation.\n" ++
  "                        3.  Direct the user to review the \"Risk & Clause Breakdown\" for potential issues identified in the document.\n" ++
  "                        4.  Recommend consulting a qualified legal professional for a definitive opinion.\n" ++
  "\n" ++
  "                        **Standard Q&A Instructions:**\n" ++
  "                        For all other factual questions:\n" ++
  "                        1.  Locate the exact information in the document text.\n" ++
  "                        2.  Provide the answer based only on that text.\n" ++
  "                        3.  Cite the source by including a relevant quote, prefixed with \"**Source:**\".\n" ++
  "                        4.  If the answer is not found, state: \"I could not find an answer to your question in the provided document.\"\n" ++
  "\n"

/-- Text of the `qa_prompt` f-string before the interpolated document
text. -/
def qaPre : String := qaBody ++ docHeader24

/-- Text of the `qa_prompt` f-string between the interpolated document text
and the interpolated user question. -/
def qaMid : String :=
  "\n---\n**User's Question:** \""

/-- Text of the `qa_prompt` f-string after the interpolated user
question. -/
def qaSuf : String :=
  "\"\n**Factual Answer:**\n                    "

/-- Assembly of `qa_prompt` (src/app.py lines 197-217).  It interpolates
only the session's document text and the current question: no part of
`st.session_state.messages` occurs in the f-string. -/
def qa_prompt (document_text question : String) : String :=
  dedent (qaPre ++ document_text ++ qaMid ++ question ++ qaSuf)

/-! ### Session state and the interaction step -/

/-- Fields of `st.session_state`: `analysis_complete`, `document_text` and
`messages` are initialized at src/app.py lines 98-103; `summary` and `risks`
are only assigned by a successful analysis (lines 154-155), hence
`Option`. -/
structure SessionState where
  analysis_complete : Bool
  document_text : Option String
  summary : Option String
  risks : Option String
  messages : List Message
deriving DecidableEq, Repr

/-- Initial session state of a fresh session (src/app.py lines 98-103). -/
def initialState : SessionState :=
  { analysis_complete := false
    document_text := none
    summary := none
    risks := none
    messages := [] }

/-- Rendering of the `Optional[str]` field `st.session_state.document_text`
inside an f-string: Python formats `None` as the four characters `None`. -/
def pyStrOpt : Option String → String
  | none => "None"
  | some s => s

/-- Observable outward effects of one script run: a request to the hosted
completion API carrying its prompt, or a file-download/export effect
offering a generated document to the user.  `main` only ever produces the
former. -/
inductive Effect where
  | completion (prompt : String)
  | download (document : String)
deriving DecidableEq

/-- Is the effect a file-download/export effect? -/
def Effect.isDownload : Effect → Bool
  | Effect.download _ => true
  | Effect.completion _ => false

/-- Handler of the "Analyze Document" button (src/app.py lines 114-162):
with no uploaded file only a warning is shown; otherwise the extraction
result is stored into `document_text` unconditionally (line 117), and when
that stored value is truthy the summary prompt and then the risks prompt are
sent to the model, `summary`, `risks` and `analysis_complete` are set and
the chat is reset (lines 154-157).  When the stored value is falsy only an
error is shown (line 160). -/
def analyzeClick (gen : String → Except String String) (s : SessionState)
    (uploaded_file : Option PdfFile) : SessionState × List Effect :=
  match uploaded_file with
  | none => (s, [])
  | some _ =>
      let dt := extract_text_from_pdf uploaded_file
      let s1 : SessionState := { s with document_text := dt }
      match dt with
      | some t =>
          if t == "" then (s1, [])
          else
            let sp := summary_prompt t
            let rp := risks_prompt t
            let newSummary := (get_gemini_response gen sp).1
            let newRisks := (get_gemini_response gen rp).1
            ({ s1 with
                summary := some newSummary
                risks := some newRisks
                analysis_complete := true
                messages := [] },
             [Effect.completion sp, Effect.completion rp])
      | none => (s1, [])

/-- Handler of a submitted chat question (src/app.py lines 189-220): append
the user turn, build the Q&A prompt from the session's document text and the
question, send it once, and append the assistant turn. -/
def chatSubmit (gen : String → Except String String) (s : SessionState)
    (question : String) : SessionState × List Effect :=
  let s1 : SessionState := { s with messages := s.messages ++ [⟨"user", question⟩] }
  let qp := qa_prompt (pyStrOpt s.document_text) question
  let response := (get_gemini_response gen qp).1
  ({ s1 with messages := s1.messages ++ [⟨"assistant", response⟩] },
   [Effect.completion qp])

/-- User interaction triggering one script run. -/
inductive Event where
  | analyze (uploaded_file : Option PdfFile)
  | chat (question : String)

/-- One script run of `main` reacting to an interaction.  The chat input is
rendered, hence submittable, only when `analysis_complete` is set
(src/app.py lines 165-189). -/
def step (gen : String → Except String String) (s : SessionState) :
    Event → SessionState × List Effect
  | Event.analyze up => analyzeClick gen s up
  | Event.chat q =>
      if s.analysis_complete then chatSubmit gen s q else (s, [])

/-- Transcript render loop (src/app.py lines 185-187): one chat bubble per
stored message, in list order. -/
def renderTranscript (msgs : List Message) : List (String × String) :=
  msgs.map fun m => (m.role, m.content)

/-! ### General lemmas about strings, splitting and dedenting -/

theorem data_append (a b : String) : (a ++ b).data = a.data ++ b.data := by
  cases a
  cases b
  rfl

theorem splitNl_ne_nil (l : List Char) : splitNl l ≠ [] := by
  cases l with
  | nil => simp [splitNl]
  | cons c rest =>
      simp only [splitNl]
      split <;> simp

theorem splitNl_append_newline (x y : List Char) :
    splitNl (x ++ '\n' :: y) = splitNl x ++ splitNl y := by
  induction x with
  | nil => simp [splitNl]
  | cons c x ih =>
      by_cases hc : c = '\n'
      · subst hc
        simp [splitNl, ih]
      · rcases hx : splitNl x with _ | ⟨a, as⟩
        · exact absurd hx (splitNl_ne_nil x)
        · simp [splitNl, hc, ih, hx]

theorem joinNl_cons (l : List Char) (ls : List (List Char)) (h : ls ≠ []) :
    joinNl (l :: ls) = l ++ '\n' :: joinNl ls := by
  cases ls with
  | nil => exact absurd rfl h
  | cons a as => rfl

theorem joinNl_splitNl (l : List Char) : joinNl (splitNl l) = l := by
  induction l with
  | nil => rfl
  | cons c rest ih =>
      by_cases hc : c = '\n'
      · subst hc
        rw [show splitNl ('\n' :: rest) = [] :: splitNl rest by simp [splitNl],
          joinNl_cons _ _ (splitNl_ne_nil rest), ih]
        rfl
      · rcases hx : splitNl rest with _ | ⟨a, as⟩
        · exact absurd hx (splitNl_ne_nil rest)
        · rw [show splitNl (c :: rest) =
              (c :: (splitNl rest).headI) :: (splitNl rest).tail by
              simp [splitNl, hc], hx]
          rw [hx] at ih
          simp only [List.headI, List.tail_cons]
          cases as with
          | nil =>
              simp only [joinNl] at ih ⊢
              rw [ih]
          | cons b bs =>
              rw [joinNl_cons _ _ (by simp)] at ih
              rw [joinNl_cons _ _ (by simp), List.cons_append, ih]

theorem joinNl_append (A B : List (List Char)) (hA : A ≠ []) (hB : B ≠ []) :
    joinNl (A ++ B) = joinNl A ++ '\n' :: joinNl B := by
  induction A with
  | nil => exact absurd rfl hA
  | cons a as ih =>
      cases as with
      | nil => simpa using joinNl_cons a B hB
      | cons b bs =>
          rw [List.cons_append, joinNl_cons a (b :: bs ++ B) (by simp),
            joinNl_cons a (b :: bs) (by simp), ih (by simp)]
          simp

theorem lcp_nil_left (b : List Char) : lcp [] b = [] := by cases b <;> rfl

theorem lcp_nil_right (a : List Char) : lcp a [] = [] := by cases a <;> rfl

theorem foldl_lcp_nil (L : List (List Char)) : L.foldl lcp [] = [] := by
  induction L with
  | nil => rfl
  | cons i L ih => simp [List.foldl_cons, lcp_nil_left, ih]

theorem foldl_lcp_of_mem (L : List (List Char)) (hm : [] ∈ L) :
    ∀ acc, L.foldl lcp acc = [] := by
  induction L with
  | nil => simp at hm
  | cons j L ih =>
      intro acc
      rcases List.mem_cons.mp hm with hj | hj
      · rw [List.foldl_cons, ← hj, lcp_nil_right, foldl_lcp_nil]
      · rw [List.foldl_cons]
        exact ih hj _

theorem marginOf_eq_nil (inds : List (List Char)) (hm : [] ∈ inds) :
    marginOf inds = [] := by
  cases inds with
  | nil => simp at hm
  | cons i L =>
      show L.foldl lcp i = []
      rcases List.mem_cons.mp hm with hi | hi
      · rw [← hi, foldl_lcp_nil]
      · exact foldl_lcp_of_mem L hi i

theorem normWS_of_not_ws {l : List Char} (h : wsOnly l = false) : normWS l = l := by
  simp [normWS, h]

theorem map_normWS_id (L : List (List Char)) (h : ∀ l ∈ L, wsOnly l = false) :
    L.map normWS = L := by
  induction L with
  | nil => rfl
  | cons a as ih =>
      rw [List.map_cons, normWS_of_not_ws (h a (by simp)),
        ih fun l hl => h l (by simp [hl])]

theorem wsOnly_cons_of_content (c : Char) (l : List Char) (h : isHWS c = false) :
    wsOnly (c :: l) = false := by
  simp [wsOnly, h]

theorem splitNl_eq_single {l : List Char} (h : '\n' ∉ l) : splitNl l = [l] := by
  induction l with
  | nil => rfl
  | cons c rest ih =>
      have hc : c ≠ '\n' := fun hh => h (hh ▸ List.mem_cons_self c rest)
      have hr : '\n' ∉ rest := fun hh => h (List.mem_cons_of_mem c hh)
      simp [splitNl, hc, ih hr]

theorem startsWith_append_self (n t : List Char) : startsWith n (n ++ t) = true := by
  induction n with
  | nil => rfl
  | cons a as ih => simp [startsWith, ih]

theorem hasSub_of_startsWith (n h : List Char) (hs : startsWith n h = true) :
    hasSub n h = true := by
  cases h with
  | nil => exact hs
  | cons c cs => simp [hasSub, hs]

theorem hasSub_of_occurs (n h : List Char) (ho : n <:+: h) : hasSub n h = true := by
  obtain ⟨s, t, rfl⟩ := ho
  induction s with
  | nil => exact hasSub_of_startsWith _ _ (by simpa using startsWith_append_self n t)
  | cons c s ih =>
      show hasSub n (c :: (s ++ n ++ t)) = true
      simp only [hasSub, Bool.or_eq_true]
      exact Or.inr ih

theorem not_occurs_of_hasSub_false (n h : List Char) (hf : hasSub n h = false) :
    ¬ (n <:+: h) :=
  fun ho => absurd (hasSub_of_occurs n h ho) (by simp [hf])

theorem occurs_trans {a b c : List Char} (h1 : a <:+: b) (h2 : b <:+: c) :
    a <:+: c := by
  obtain ⟨s, t, rfl⟩ := h1
  obtain ⟨u, v, rfl⟩ := h2
  exact ⟨u ++ s, t ++ v, by simp [List.append_assoc]⟩

theorem dedentChars_keeps_middle (P mid S : List Char)
    (hwit : ∃ l, l ∈ splitNl P ∧ wsOnly l = false ∧ hasContent l = true ∧
      leadingWS l = [])
    (hmid : ∀ l ∈ splitNl mid, wsOnly l = false) :
    mid <:+: dedentChars (P ++ '\n' :: (mid ++ '\n' :: S)) := by
  obtain ⟨w, hwmem, hwws, hwc, hwl⟩ := hwit
  have hsplit : splitNl (P ++ '\n' :: (mid ++ '\n' :: S)) =
      splitNl P ++ (splitNl mid ++ splitNl S) := by
    rw [splitNl_append_newline, splitNl_append_newline]
  have hmargin :
      marginOf (((((splitNl (P ++ '\n' :: (mid ++ '\n' :: S))).map
        normWS).filter hasContent).map leadingWS)) = [] := by
    apply marginOf_eq_nil
    have hw1 : w ∈ (splitNl (P ++ '\n' :: (mid ++ '\n' :: S))).map normWS := by
      rw [hsplit]
      exact List.mem_map.mpr ⟨w, List.mem_append_left _ hwmem,
        normWS_of_not_ws hwws⟩
    have hw2 : w ∈ ((splitNl (P ++ '\n' :: (mid ++ '\n' :: S))).map
        normWS).filter hasContent :=
      List.mem_filter.mpr ⟨hw1, hwc⟩
    exact hwl ▸ List.mem_map_of_mem leadingWS hw2
  have hd : dedentChars (P ++ '\n' :: (mid ++ '\n' :: S)) =
      joinNl ((splitNl (P ++ '\n' :: (mid ++ '\n' :: S))).map normWS) := by
    simp only [dedentChars]
    rw [hmargin]
    rfl
  rw [hd, hsplit, List.map_append, List.map_append,
    map_normWS_id (splitNl mid) hmid]
  have hA : (splitNl P).map normWS ≠ [] := by
    intro h
    exact splitNl_ne_nil P (List.map_eq_nil_iff.mp h)
  have hB : (splitNl S).map normWS ≠ [] := by
    intro h
    exact splitNl_ne_nil S (List.map_eq_nil_iff.mp h)
  rw [joinNl_append _ _ hA (by simp [splitNl_ne_nil mid]),
    joinNl_append _ _ (splitNl_ne_nil mid) hB, joinNl_splitNl]
  exact ⟨joinNl ((splitNl P).map normWS) ++ ['\n'],
    '\n' :: joinNl ((splitNl S).map normWS), by simp [List.append_assoc]⟩

theorem hyph_mem_splitNl_left (x : List Char) :
    ['-', '-', '-'] ∈ splitNl (x ++ '\n' :: ['-', '-', '-']) := by
  rw [splitNl_append_newline]
  exact List.mem_append_right _ (by decide)

theorem dedent_data (s : String) : (dedent s).data = dedentChars s.data := rfl

theorem summary_prompt_data (t : String) : (summary_prompt t).data =
    dedentChars (summaryPre.data ++ t.data ++ summarySuf.data) := by
  rw [show summary_prompt t = dedent (summaryPre ++ t ++ summarySuf) from rfl,
    dedent_data, data_append, data_append]

theorem risks_prompt_data (t : String) : (risks_prompt t).data =
    dedentChars (risksPre.data ++ t.data ++ risksSuf.data) := by
  rw [show risks_prompt t = dedent (risksPre ++ t ++ risksSuf) from rfl,
    dedent_data, data_append, data_append]

theorem qa_prompt_data (t q : String) : (qa_prompt t q).data =
    dedentChars (qaPre.data ++ t.data ++ qaMid.data ++ q.data ++ qaSuf.data) := by
  rw [show qa_prompt t q = dedent (qaPre ++ t ++ qaMid ++ q ++ qaSuf) from rfl,
    dedent_data, data_append, data_append, data_append, data_append]

theorem summary_keeps_doc (t : String)
    (ht : ∀ l ∈ splitNl t.data, wsOnly l = false) :
    t.data <:+: (summary_prompt t).data := by
  obtain ⟨S0, hS⟩ : ∃ S0, summarySuf.data = '\n' :: S0 :=
    ⟨summarySuf.data.tail, by decide⟩
  have hhdr : docHeader28.data =
      "                            **Document Text:**".data ++
        '\n' :: (['-', '-', '-'] ++ ['\n']) := by decide
  have hshape : summaryPre.data ++ t.data ++ summarySuf.data =
      (summaryBody.data ++ "                            **Document Text:**".data ++
        '\n' :: ['-', '-', '-']) ++ '\n' :: (t.data ++ '\n' :: S0) := by
    rw [show summaryPre.data = summaryBody.data ++ docHeader28.data from
        data_append summaryBody docHeader28, hhdr, hS]
    simp [List.append_assoc]
  rw [summary_prompt_data, hshape]
  exact dedentChars_keeps_middle _ t.data S0
    ⟨['-', '-', '-'], hyph_mem_splitNl_left _, by decide, by decide, by decide⟩ ht

theorem risks_keeps_doc (t : String)
    (ht : ∀ l ∈ splitNl t.data, wsOnly l = false) :
    t.data <:+: (risks_prompt t).data := by
  obtain ⟨S0, hS⟩ : ∃ S0, risksSuf.data = '\n' :: S0 :=
    ⟨risksSuf.data.tail, by decide⟩
  have hhdr : docHeader28.data =
      "                            **Document Text:**".data ++
        '\n' :: (['-', '-', '-'] ++ ['\n']) := by decide
  have hshape : risksPre.data ++ t.data ++ risksSuf.data =
      (risksBody.data ++ "                            **Document Text:**".data ++
        '\n' :: ['-', '-', '-']) ++ '\n' :: (t.data ++ '\n' :: S0) := by
    rw [show risksPre.data = risksBody.data ++ docHeader28.data from
        data_append risksBody docHeader28, hhdr, hS]
    simp [List.append_assoc]
  rw [risks_prompt_data, hshape]
  exact dedentChars_keeps_middle _ t.data S0
    ⟨['-', '-', '-'], hyph_mem_splitNl_left _, by decide, by decide, by decide⟩ ht

theorem qa_keeps_doc (t q : String)
    (ht : ∀ l ∈ splitNl t.data, wsOnly l = false) :
    t.data <:+: (qa_prompt t q).data := by
  obtain ⟨M0, hM⟩ : ∃ M0, qaMid.data = '\n' :: M0 :=
    ⟨qaMid.data.tail, by decide⟩
  have hhdr : docHeader24.data =
      "                        **Document Text:**".data ++
        '\n' :: (['-', '-', '-'] ++ ['\n']) := by decide
  have hshape : qaPre.data ++ t.data ++ qaMid.data ++ q.data ++ qaSuf.data =
      (qaBody.data ++ "                        **Document Text:**".data ++
        '\n' :: ['-', '-', '-']) ++ '\n' ::
          (t.data ++ '\n' :: (M0 ++ (q.data ++ qaSuf.data))) := by
    rw [show qaPre.data = qaBody.data ++ docHeader24.data from
        data_append qaBody docHeader24, hhdr, hM]
    simp [List.append_assoc]
  rw [qa_prompt_data, hshape]
  exact dedentChars_keeps_middle _ t.data (M0 ++ (q.data ++ qaSuf.data))
    ⟨['-', '-', '-'], hyph_mem_splitNl_left _, by decide, by decide, by decide⟩ ht

theorem qa_keeps_question (t q : String) (hq : '\n' ∉ q.data) :
    q.data <:+: (qa_prompt t q).data := by
  have hM : qaMid.data =
      '\n' :: (['-', '-', '-'] ++ '\n' :: "**User's Question:** \"".data) := by
    decide
  have hS : qaSuf.data =
      '"' :: '\n' :: "**Factual Answer:**\n                    ".data := by
    decide
  have hshape : qaPre.data ++ t.data ++ qaMid.data ++ q.data ++ qaSuf.data =
      ((qaPre.data ++ t.data) ++ '\n' :: ['-', '-', '-']) ++ '\n' ::
        (("**User's Question:** \"".data ++ q.data ++ ['"']) ++ '\n' ::
          "**Factual Answer:**\n                    ".data) := by
    rw [hM, hS]
    simp [List.append_assoc]
  have hwit : ∃ l, l ∈ splitNl ((qaPre.data ++ t.data) ++ '\n' :: ['-', '-', '-']) ∧
      wsOnly l = false ∧ hasContent l = true ∧ leadingWS l = [] :=
    ⟨['-', '-', '-'], hyph_mem_splitNl_left _, by decide, by decide, by decide⟩
  have hmid : ∀ l ∈ splitNl ("**User's Question:** \"".data ++ q.data ++ ['"']),
      wsOnly l = false := by
    have hnl : '\n' ∉ "**User's Question:** \"".data ++ q.data ++ ['"'] := by
      intro hin
      rcases List.mem_append.mp hin with hin | hin
      · rcases List.mem_append.mp hin with hin | hin
        · exact absurd hin (by decide)
        · exact hq hin
      · exact absurd hin (by decide)
    rw [splitNl_eq_single hnl]
    intro l hl
    rw [List.mem_singleton.mp hl]
    rw [show "**User's Question:** \"".data ++ q.data ++ ['"'] =
      '*' :: ("*User's Question:** \"".data ++ q.data ++ ['"']) by simp]
    exact wsOnly_cons_of_content _ _ (by decide)
  have hmain := dedentChars_keeps_middle
    ((qaPre.data ++ t.data) ++ '\n' :: ['-', '-', '-'])
    ("**User's Question:** \"".data ++ q.data ++ ['"'])
    "**Factual Answer:**\n                    ".data hwit hmid
  rw [qa_prompt_data, hshape]
  exact occurs_trans ⟨"**User's Question:** \"".data, ['"'], rfl⟩ hmain

/-! ### The claims -/

/-- C1 (counterexample): the prompt sent for a follow-up chat question does
not replay the past transcript.  In a session with a completed analysis over
document text `d` whose transcript already holds a user turn with content
`z` and an assistant turn, submitting the question `next` sends exactly the
prompt `qa_prompt "d" "next"`, and the content of the earlier user turn does
not occur anywhere in that prompt. -/
theorem C1_counterexample :
    (step (fun _ => Except.ok "resp")
        (⟨true, some "d", some "s", some "r",
          [⟨"user", "z"⟩, ⟨"assistant", "w"⟩]⟩ : SessionState)
        (Event.chat "next")).2 =
      [Effect.completion (qa_prompt "d" "next")] ∧
    ¬ ("z".data <:+: (qa_prompt "d" "next").data) :=
  ⟨rfl, not_occurs_of_hasSub_false _ _ (by decide)⟩

/-- C1 (amended): the prompt sent to the completion service for a follow-up
chat question is exactly `qa_prompt` applied to the session's document text
and the new question; the stored transcript is not part of the prompt (it is
only re-rendered in the page). -/
theorem C1_chat_prompt_ignores_transcript
    (gen : String → Except String String) (s : SessionState) (q : String)
    (h : s.analysis_complete = true) :
    (step gen s (Event.chat q)).2 =
      [Effect.completion (qa_prompt (pyStrOpt s.document_text) q)] := by
  simp [step, h, chatSubmit]

/-- Witness for C1 at a concrete session whose transcript is non-empty. -/
theorem C1_witness :
    (step (fun _ => Except.ok "resp")
        (⟨true, some "d", some "s", some "r",
          [⟨"user", "z"⟩, ⟨"assistant", "w"⟩]⟩ : SessionState)
        (Event.chat "next")).2 =
      [Effect.completion (qa_prompt (pyStrOpt (some "d")) "next")] :=
  C1_chat_prompt_ignores_transcript _ _ "next" rfl

/-- C2 (counterexample): a single click of "Analyze Document" with a
readable PDF issues two completion requests, not one. -/
theorem C2_counterexample :
    ((step (fun _ => Except.ok "resp") initialState
        (Event.analyze (some (Except.ok [some "T"])))).2).length = 2 ∧
    ¬ (((step (fun _ => Except.ok "resp") initialState
        (Event.analyze (some (Except.ok [some "T"])))).2).length = 1) :=
  ⟨rfl, by decide⟩

/-- C2 (amended): a successful "Analyze Document" click issues exactly two
completion requests (the summary prompt, then the risks prompt), and each
submitted chat question issues exactly one (the Q&A prompt). -/
theorem C2_completion_calls_per_interaction :
    (∀ (gen : String → Except String String) (s : SessionState) (f : PdfFile)
      (t : String), extract_text_from_pdf (some f) = some t → t ≠ "" →
      (step gen s (Event.analyze (some f))).2 =
        [Effect.completion (summary_prompt t), Effect.completion (risks_prompt t)]) ∧
    (∀ (gen : String → Except String String) (s : SessionState) (q : String),
      s.analysis_complete = true →
      (step gen s (Event.chat q)).2 =
        [Effect.completion (qa_prompt (pyStrOpt s.document_text) q)]) := by
  constructor
  · intro gen s f t hext ht
    have hb : (t == "") = false := by simp [ht]
    simp [step, analyzeClick, hext, hb]
  · intro gen s q h
    simp [step, h, chatSubmit]

/-- Witness for C2 at concrete interactions. -/
theorem C2_witness :
    (step (fun _ => Except.ok "resp") initialState
        (Event.analyze (some (Except.ok [some "T"])))).2 =
      [Effect.completion (summary_prompt "T"), Effect.completion (risks_prompt "T")] ∧
    (step (fun _ => Except.ok "resp")
        (⟨true, some "T", some "s", some "r", []⟩ : SessionState)
        (Event.chat "q")).2 =
      [Effect.completion (qa_prompt (pyStrOpt (some "T")) "q")] :=
  ⟨C2_completion_calls_per_interaction.1 _ _ _ "T" rfl (by decide),
   C2_completion_calls_per_interaction.2 _ _ "q" rfl⟩

/-- C3 (counterexample): after a completed analysis, neither of the two
interactions the page offers (another "Analyze Document" click, or a chat
question) produces any download/export effect: no export of the generated
results is available anywhere. -/
theorem C3_counterexample :
    ((step (fun _ => Except.ok "resp")
        (⟨true, some "T", some "sum", some "rsk", []⟩ : SessionState)
        (Event.analyze (some (Except.ok [some "T2"])))).2).filter
      Effect.isDownload = [] ∧
    ((step (fun _ => Except.ok "resp")
        (⟨true, some "T", some "sum", some "rsk", []⟩ : SessionState)
        (Event.chat "q")).2).filter Effect.isDownload = [] :=
  ⟨rfl, rfl⟩

/-- C3 (amended): the application offers no export operation at all: no
interaction ever produces a download/export effect; `main` only renders the
generated summary, risk breakdown and transcript in the page (and no
dashboard or export exists in the code). -/
theorem C3_no_export_effect (gen : String → Except String String)
    (s : SessionState) (e : Event) :
    ((step gen s e).2).filter Effect.isDownload = [] := by
  cases e with
  | analyze up =>
      cases up with
      | none => rfl
      | some f =>
          rcases hdt : extract_text_from_pdf (some f) with _ | t
          · simp [step, analyzeClick, hdt]
          · cases hb : (t == "") <;>
              simp [step, analyzeClick, hdt, hb, Effect.isDownload, List.filter]
  | chat q =>
      cases hc : s.analysis_complete <;>
        simp [step, hc, chatSubmit, Effect.isDownload, List.filter]

/-- C4: when the completion call raises, `get_gemini_response` returns the
formatted error message (together with the single request it made) instead
of propagating the exception, and when `pdfplumber` raises,
`extract_text_from_pdf` returns `None`. -/
theorem C4_exceptions_become_messages :
    (∀ (gen : String → Except String String) (p e : String),
      gen p = Except.error e →
      get_gemini_response gen p =
        ("Could not get response from Gemini. Error: " ++ e, [p])) ∧
    (∀ e : String, extract_text_from_pdf (some (Except.error e)) = none) := by
  constructor
  · intro gen p e h
    simp [get_gemini_response, h]
  · intro e
    rfl

/-- Witness for C4 at a concrete raising oracle and a concrete raising
PDF open. -/
theorem C4_witness :
    get_gemini_response (fun _ => Except.error "boom") "ping" =
      ("Could not get response from Gemini. Error: " ++ "boom", ["ping"]) ∧
    extract_text_from_pdf (some (Except.error "boom")) = none :=
  ⟨C4_exceptions_become_messages.1 _ "ping" "boom" rfl,
   C4_exceptions_become_messages.2 "boom"⟩

/-- C5: for a PDF that opens successfully, `extract_text_from_pdf` returns
the concatenation, in page order, of the extracted text of exactly those
pages whose extraction yields a truthy (non-`None`, non-empty) result. -/
theorem C5_extract_joins_truthy_pages (pages : List (Option String)) :
    extract_text_from_pdf (some (Except.ok pages)) =
      some (String.join ((pages.filter pyTruthy).map fun p => p.getD "")) := by
  show some (String.join (pages.filterMap pageText)) = _
  congr 2
  induction pages with
  | nil => rfl
  | cons p ps ih =>
      cases p with
      | none => simpa [pageText, pyTruthy] using ih
      | some t =>
          by_cases h : t = ""
          · subst h
            simpa [pageText, pyTruthy] using ih
          · simp [pageText, pyTruthy, h, ih]

/-- C7: one invocation of `get_gemini_response` issues exactly one request
to `generate_content`, whether the call succeeds or raises; there is no
retry, backoff, streaming or concurrent request logic. -/
theorem C7_single_completion_request (gen : String → Except String String)
    (p : String) :
    (get_gemini_response gen p).2 = [p] ∧
    (get_gemini_response gen p).2.length = 1 := by
  unfold get_gemini_response
  cases gen p <;> exact ⟨rfl, rfl⟩

/-- C8: a submitted chat question appends first the user turn and then the
assistant turn to the stored transcript, leaves all earlier messages
unchanged and in place, and the transcript renders in exactly that order. -/
theorem C8_transcript_append_order (gen : String → Except String String)
    (s : SessionState) (q : String) (h : s.analysis_complete = true) :
    (step gen s (Event.chat q)).1.messages =
      s.messages ++ [⟨"user", q⟩,
        ⟨"assistant", (get_gemini_response gen
          (qa_prompt (pyStrOpt s.document_text) q)).1⟩] ∧
    ((step gen s (Event.chat q)).1.messages).take s.messages.length =
      s.messages ∧
    renderTranscript (step gen s (Event.chat q)).1.messages =
      renderTranscript s.messages ++ [("user", q),
        ("assistant", (get_gemini_response gen
          (qa_prompt (pyStrOpt s.document_text) q)).1)] := by
  refine ⟨?_, ?_, ?_⟩
  · simp [step, h, chatSubmit]
  · have hm : (step gen s (Event.chat q)).1.messages =
        s.messages ++ [⟨"user", q⟩,
          ⟨"assistant", (get_gemini_response gen
            (qa_prompt (pyStrOpt s.document_text) q)).1⟩] := by
      simp [step, h, chatSubmit]
    rw [hm, List.take_left]
  · simp [step, h, chatSubmit, renderTranscript]

/-- Witness for C8 at a concrete session with a non-empty transcript. -/
theorem C8_witness :
    (step (fun _ => Except.ok "resp")
        (⟨true, some "d", some "s", some "r",
          [⟨"user", "hi"⟩, ⟨"assistant", "ho"⟩]⟩ : SessionState)
        (Event.chat "next")).1.messages =
      [⟨"user", "hi"⟩, ⟨"assistant", "ho"⟩] ++ [⟨"user", "next"⟩,
        ⟨"assistant", (get_gemini_response (fun _ => Except.ok "resp")
          (qa_prompt (pyStrOpt (some "d")) "next")).1⟩] :=
  (C8_transcript_append_order _ _ "next" rfl).1

/-- C9: an "Analyze Document" click whose extraction yields non-empty text
resets the chat transcript to empty, marks the analysis complete, stores
the two generated texts into `summary` and `risks`, and stores the
extracted text into `document_text`. -/
theorem C9_analyze_resets_chat (gen : String → Except String String)
    (s : SessionState) (f : PdfFile) (t : String)
    (hext : extract_text_from_pdf (some f) = some t) (ht : t ≠ "") :
    (step gen s (Event.analyze (some f))).1.messages = [] ∧
    (step gen s (Event.analyze (some f))).1.analysis_complete = true ∧
    (step gen s (Event.analyze (some f))).1.summary =
      some ((get_gemini_response gen (summary_prompt t)).1) ∧
    (step gen s (Event.analyze (some f))).1.risks =
      some ((get_gemini_response gen (risks_prompt t)).1) ∧
    (step gen s (Event.analyze (some f))).1.document_text = some t := by
  have hb : (t == "") = false := by simp [ht]
  refine ⟨?_, ?_, ?_, ?_, ?_⟩ <;> simp [step, analyzeClick, hext, hb]

/-- Witness for C9: a concrete analysis over a previous session with a
non-empty transcript and older results. -/
theorem C9_witness :
    (step (fun _ => Except.ok "resp")
        (⟨true, some "old", some "s0", some "r0",
          [⟨"user", "hi"⟩]⟩ : SessionState)
        (Event.analyze (some (Except.ok [some "T"])))).1.messages = [] ∧
    (step (fun _ => Except.ok "resp")
        (⟨true, some "old", some "s0", some "r0",
          [⟨"user", "hi"⟩]⟩ : SessionState)
        (Event.analyze (some (Except.ok [some "T"])))).1.analysis_complete =
      true ∧
    (step (fun _ => Except.ok "resp")
        (⟨true, some "old", some "s0", some "r0",
          [⟨"user", "hi"⟩]⟩ : SessionState)
        (Event.analyze (some (Except.ok [some "T"])))).1.summary =
      some ((get_gemini_response (fun _ => Except.ok "resp")
        (summary_prompt "T")).1) ∧
    (step (fun _ => Except.ok "resp")
        (⟨true, some "old", some "s0", some "r0",
          [⟨"user", "hi"⟩]⟩ : SessionState)
        (Event.analyze (some (Except.ok [some "T"])))).1.risks =
      some ((get_gemini_response (fun _ => Except.ok "resp")
        (risks_prompt "T")).1) ∧
    (step (fun _ => Except.ok "resp")
        (⟨true, some "old", some "s0", some "r0",
          [⟨"user", "hi"⟩]⟩ : SessionState)
        (Event.analyze (some (Except.ok [some "T"])))).1.document_text =
      some "T" :=
  C9_analyze_resets_chat _ _ _ "T" rfl (by decide)

/-- C10: when a previous analysis has completed and a later "Analyze
Document" click fails extraction (falsy result: `None` or empty), the state
keeps `analysis_complete`, `summary`, `risks` and `messages`, but
`document_text` is overwritten with the failed extraction result, and any
later chat question builds its prompt from that new (absent or empty)
text. -/
theorem C10_failed_analyze_overwrites_doc_only
    (gen : String → Except String String) (s : SessionState) (f : PdfFile)
    (hprev : s.analysis_complete = true)
    (hfail : pyTruthy (extract_text_from_pdf (some f)) = false) :
    ((step gen s (Event.analyze (some f))).1.analysis_complete = true ∧
     (step gen s (Event.analyze (some f))).1.summary = s.summary ∧
     (step gen s (Event.analyze (some f))).1.risks = s.risks ∧
     (step gen s (Event.analyze (some f))).1.messages = s.messages ∧
     (step gen s (Event.analyze (some f))).1.document_text =
       extract_text_from_pdf (some f)) ∧
    (∀ q, (step gen (step gen s (Event.analyze (some f))).1
        (Event.chat q)).2 =
      [Effect.completion
        (qa_prompt (pyStrOpt (extract_text_from_pdf (some f))) q)]) := by
  rcases hdt : extract_text_from_pdf (some f) with _ | t
  · refine ⟨⟨?_, ?_, ?_, ?_, ?_⟩, ?_⟩ <;>
      simp [step, analyzeClick, hdt, hprev, chatSubmit]
  · have ht : t = "" := by
      rw [hdt] at hfail
      simpa [pyTruthy] using hfail
    subst ht
    refine ⟨⟨?_, ?_, ?_, ?_, ?_⟩, ?_⟩ <;>
      simp [step, analyzeClick, hdt, hprev, chatSubmit]

/-- Witness for C10: a concrete completed session followed by an analysis
click on a PDF whose open raises, then a chat question. -/
theorem C10_witness :
    ((step (fun _ => Except.ok "resp")
        (⟨true, some "old", some "s0", some "r0",
          [⟨"user", "hi"⟩]⟩ : SessionState)
        (Event.analyze (some (Except.error "boom")))).1.analysis_complete =
      true ∧
     (step (fun _ => Except.ok "resp")
        (⟨true, some "old", some "s0", some "r0",
          [⟨"user", "hi"⟩]⟩ : SessionState)
        (Event.analyze (some (Except.error "boom")))).1.summary = some "s0" ∧
     (step (fun _ => Except.ok "resp")
        (⟨true, some "old", some "s0", some "r0",
          [⟨"user", "hi"⟩]⟩ : SessionState)
        (Event.analyze (some (Except.error "boom")))).1.risks = some "r0" ∧
     (step (fun _ => Except.ok "resp")
        (⟨true, some "old", some "s0", some "r0",
          [⟨"user", "hi"⟩]⟩ : SessionState)
        (Event.analyze (some (Except.error "boom")))).1.messages =
      [⟨"user", "hi"⟩] ∧
     (step (fun _ => Except.ok "resp")
        (⟨true, some "old", some "s0", some "r0",
          [⟨"user", "hi"⟩]⟩ : SessionState)
        (Event.analyze (some (Except.error "boom")))).1.document_text =
      extract_text_from_pdf (some (Except.error "boom"))) ∧
    (step (fun _ => Except.ok "resp")
        (step (fun _ => Except.ok "resp")
          (⟨true, some "old", some "s0", some "r0",
            [⟨"user", "hi"⟩]⟩ : SessionState)
          (Event.analyze (some (Except.error "boom")))).1
        (Event.chat "next")).2 =
      [Effect.completion
        (qa_prompt (pyStrOpt (extract_text_from_pdf
          (some (Except.error "boom")))) "next")] :=
  ⟨(C10_failed_analyze_overwrites_doc_only (fun _ => Except.ok "resp")
      ⟨true, some "old", some "s0", some "r0", [⟨"user", "hi"⟩]⟩
      (Except.error "boom") rfl rfl).1,
   (C10_failed_analyze_overwrites_doc_only (fun _ => Except.ok "resp")
      ⟨true, some "old", some "s0", some "r0", [⟨"user", "hi"⟩]⟩
      (Except.error "boom") rfl rfl).2 "next"⟩

/-- C6 (counterexample): the assembled prompt does not always contain the
document text verbatim: for the document text consisting of the line `A`, a
line holding a single space, and the line `B`, `textwrap.dedent` blanks the
whitespace-only middle line, so the summary prompt does not contain that
text as a contiguous substring. -/
theorem C6_counterexample :
    ¬ ("A\n \nB".data <:+: (summary_prompt "A\n \nB").data) :=
  not_occurs_of_hasSub_false _ _ (by decide)

/-- C6 (amended): every prompt is assembled by interpolating the session's
document text (and for Q&A the user's question) into a fixed template and
passing the result through `textwrap.dedent`.  Whenever the document text
contains no whitespace-only line (and the question no newline), the summary
and risks prompts contain the document text verbatim, and the Q&A prompt
contains both the document text and the question verbatim; in general,
`dedent` first normalizes whitespace-only lines to empty lines. -/
theorem C6_prompts_embed_text (t q : String)
    (ht : ∀ l ∈ splitNl t.data, wsOnly l = false) (hq : '\n' ∉ q.data) :
    t.data <:+: (summary_prompt t).data ∧
    t.data <:+: (risks_prompt t).data ∧
    t.data <:+: (qa_prompt t q).data ∧
    q.data <:+: (qa_prompt t q).data :=
  ⟨summary_keeps_doc t ht, risks_keeps_doc t ht, qa_keeps_doc t q ht,
   qa_keeps_question t q hq⟩

/-- Witness for C6 at a concrete document text and question. -/
theorem C6_witness :
    "DOC".data <:+: (summary_prompt "DOC").data ∧
    "DOC".data <:+: (risks_prompt "DOC").data ∧
    "DOC".data <:+: (qa_prompt "DOC" "What is the late fee?").data ∧
    "What is the late fee?".data <:+: (qa_prompt "DOC" "What is the late fee?").data :=
  C6_prompts_embed_text "DOC" "What is the late fee?" (by decide) (by decide)

end LegalApp
